import Mathlib

/-!
Shallow embedding of the rider earnings and cashout ledger of
`mirpur-express-server` (`src/index.js`).

The embedded handlers are:
* `POST /riders/cashout`  → `ridersCashout`
* `GET  /riders/balance`  → `balanceOf` (the per-rider computation of the handler)
* `PATCH /admin/cashout/:id` → `adminCashout`

JavaScript numbers are modelled as exact rationals (`ℚ`); MongoDB documents
are modelled as Lean structures, a collection as a `List`, and `updateOne`
with a `$set` update as an update of the first matching element.  Fields that
may be absent in a request body are `Option`s, and JavaScript truthiness of a
string (respectively number) field is `strTruthy` (respectively `numTruthy`).
Timestamps (`new Date()`) are abstract `Nat` instants supplied by the caller.
-/

set_option autoImplicit false

namespace Mirpur

/-- A parcel document, restricted to the fields the cashout core reads. -/
structure Parcel where
  riderEmail : String
  deliveryStatus : String
  senderDistrict : Option String
  receiverDistrict : Option String
  deliveryCharge : Option ℚ
deriving DecidableEq, Repr

/-- A cashout request document (`cashoutCollection`). -/
structure CashoutRequest where
  id : Nat
  riderEmail : String
  riderName : String
  amount : ℚ
  status : String
  requestDate : Nat
  processedDate : Option Nat
  transactionId : Option String
  notes : String
deriving DecidableEq, Repr

/-- The persistent store: the two collections the cashout core touches. -/
structure DB where
  parcels : List Parcel
  cashouts : List CashoutRequest
deriving DecidableEq, Repr

/-- JavaScript truthiness of a possibly-absent string field:
`undefined` and the empty string are falsy. -/
def strTruthy : Option String → Bool
  | none => false
  | some s => !(s == "")

/-- JavaScript truthiness of a possibly-absent number field:
`undefined` and `0` are falsy. -/
def numTruthy : Option ℚ → Bool
  | none => false
  | some a => !(a == 0)

/-- `calculateEarning` from `src/index.js`: 80% of the delivery charge when
`senderDistrict === receiverDistrict`, otherwise 30%; `deliveryCharge || 0`
treats an absent charge as zero. -/
def calculateEarning (p : Parcel) : ℚ :=
  let percentage : ℚ := if p.senderDistrict = p.receiverDistrict then 8/10 else 3/10
  p.deliveryCharge.getD 0 * percentage

/-- The `deliveryStatus` filter used by both the cashout and the balance
handlers: `$in: ["Delivery Completed", "SC Delivered"]`. -/
def earningEligible (p : Parcel) : Bool :=
  p.deliveryStatus == "Delivery Completed" || p.deliveryStatus == "SC Delivered"

/-- `parcelCollection.find({riderEmail, deliveryStatus: {$in: [...]}})`. -/
def completedParcelsOf (parcels : List Parcel) (email : String) : List Parcel :=
  parcels.filter (fun p => p.riderEmail == email && earningEligible p)

/-- `completedParcels.reduce((sum, parcel) => sum + calculateEarning(parcel), 0)`. -/
def totalEarningsOf (parcels : List Parcel) (email : String) : ℚ :=
  (completedParcelsOf parcels email).foldl (fun sum p => sum + calculateEarning p) 0

/-- The `$match` stage of the balance handler's aggregation:
`status: {$in: ["Completed", "Pending"]}`. -/
def committedStatus (c : CashoutRequest) : Bool :=
  c.status == "Completed" || c.status == "Pending"

/-- The balance handler's aggregation: sum of `.amount` over the rider's
requests whose status is `Completed` or `Pending`. -/
def totalCashoutedOf (cashouts : List CashoutRequest) (email : String) : ℚ :=
  ((cashouts.filter (fun c => c.riderEmail == email && committedStatus c)).map
      (fun c => c.amount)).foldl (fun sum a => sum + a) 0

/-- `cashoutCollection.findOne({riderEmail, status: "Pending"})`. -/
def findPending (cashouts : List CashoutRequest) (email : String) : Option CashoutRequest :=
  cashouts.find? (fun c => c.riderEmail == email && c.status == "Pending")

/-- The `data` object returned by `GET /riders/balance`. -/
structure BalanceData where
  totalEarnings : ℚ
  totalCashouted : ℚ
  currentBalance : ℚ
  hasPendingCashout : Bool
  pendingCashoutAmount : ℚ
deriving DecidableEq, Repr

/-- The per-rider computation of the `GET /riders/balance` handler (after its
presence check on the `email` query parameter). -/
def balanceOf (db : DB) (email : String) : BalanceData :=
  let totalEarnings := totalEarningsOf db.parcels email
  let totalCashouted := totalCashoutedOf db.cashouts email
  let pendingCashout := findPending db.cashouts email
  { totalEarnings := totalEarnings
    totalCashouted := totalCashouted
    currentBalance := totalEarnings - totalCashouted
    hasPendingCashout := pendingCashout.isSome
    pendingCashoutAmount := (pendingCashout.map (fun c => c.amount)).getD 0 }

/-- Request body of `POST /riders/cashout`. -/
structure SubmitBody where
  email : Option String
  amount : Option ℚ
  riderName : Option String
deriving DecidableEq, Repr

/-- Outcome of `POST /riders/cashout`: the four 400 rejections and the 201
success carrying the created request. -/
inductive SubmitResult where
  | invalidInput
  | duplicatePending
  | insufficientBalance (available : ℚ)
  | belowMinimum
  | created (request : CashoutRequest)
deriving DecidableEq, Repr

/-- The `POST /riders/cashout` handler.  `now` models `new Date()` and
`newId` the `_id` MongoDB assigns to the inserted document.  The branch
order is exactly the source's: presence check, duplicate-pending check,
`amount > totalEarnings` (insufficient balance), `amount < 100` (below
minimum), then `insertOne` of a new Pending request. -/
def ridersCashout (db : DB) (body : SubmitBody) (now : Nat) (newId : Nat) :
    SubmitResult × DB :=
  if !(strTruthy body.email && numTruthy body.amount && strTruthy body.riderName) then
    (.invalidInput, db)
  else
    let email := body.email.getD ""
    let amount := body.amount.getD 0
    if (findPending db.cashouts email).isSome then
      (.duplicatePending, db)
    else
      let totalEarnings := totalEarningsOf db.parcels email
      if totalEarnings < amount then
        (.insufficientBalance totalEarnings, db)
      else if amount < 100 then
        (.belowMinimum, db)
      else
        let request : CashoutRequest :=
          { id := newId
            riderEmail := email
            riderName := body.riderName.getD ""
            amount := amount
            status := "Pending"
            requestDate := now
            processedDate := none
            transactionId := none
            notes := "" }
        (.created request, { db with cashouts := db.cashouts ++ [request] })

/-- Request body of `PATCH /admin/cashout/:id`. -/
structure ResolveBody where
  status : Option String
  transactionId : Option String
  notes : Option String
deriving DecidableEq, Repr

/-- Outcome of `PATCH /admin/cashout/:id`: the 400 invalid-status rejection,
or the 200 success response carrying `result.modifiedCount`. -/
inductive ResolveResult where
  | invalidStatus
  | ok (modifiedCount : Nat)
deriving DecidableEq, Repr

/-- The `$set` document built by the resolve handler: `status`,
`processedDate: new Date()`, `notes: notes || ""`, and `transactionId` only
when the target status is `Completed` and a truthy `transactionId` was sent.
A field missing from `$set` keeps its stored value. -/
def resolveUpdate (body : ResolveBody) (st : String) (now : Nat)
    (c : CashoutRequest) : CashoutRequest :=
  { c with
    status := st
    processedDate := some now
    notes := body.notes.getD ""
    transactionId :=
      if st == "Completed" && strTruthy body.transactionId then body.transactionId
      else c.transactionId }

/-- `updateOne` with a filter on `_id`: update the first element whose `id`
matches, returning the new list and `modifiedCount` (1 if a matched document
actually changed, 0 otherwise). -/
def updateFirst (cs : List CashoutRequest) (id : Nat)
    (f : CashoutRequest → CashoutRequest) : List CashoutRequest × Nat :=
  match cs with
  | [] => ([], 0)
  | c :: rest =>
    if c.id = id then
      (f c :: rest, if f c = c then 0 else 1)
    else
      let r := updateFirst rest id f
      (c :: r.1, r.2)

/-- The `PATCH /admin/cashout/:id` handler: reject a target status outside
`{Completed, Rejected}`, otherwise apply the `$set` via `updateOne` and
answer 200 with the `modifiedCount` — there is no lookup of the current
status and no 404 branch in the source. -/
def adminCashout (db : DB) (requestId : Nat) (body : ResolveBody) (now : Nat) :
    ResolveResult × DB :=
  if !(body.status == some "Completed" || body.status == some "Rejected") then
    (.invalidStatus, db)
  else
    let st := (body.status).getD ""
    let r := updateFirst db.cashouts requestId (resolveUpdate body st now)
    (.ok r.2, { db with cashouts := r.1 })

/-- The two operations that write to `cashoutCollection`. -/
inductive Op where
  | submit (body : SubmitBody) (now : Nat) (newId : Nat)
  | resolve (requestId : Nat) (body : ResolveBody) (now : Nat)

/-- State transition of one operation (the response is discarded). -/
def applyOp (db : DB) : Op → DB
  | .submit body now newId => (ridersCashout db body now newId).2
  | .resolve requestId body now => (adminCashout db requestId body now).2

/-- State after a sequence of operations. -/
def applyOps (db : DB) (ops : List Op) : DB := ops.foldl applyOp db

/-- Number of Pending requests a rider has in the store. -/
def pendingCount (cs : List CashoutRequest) (email : String) : Nat :=
  (cs.filter (fun c => c.riderEmail == email && c.status == "Pending")).length

/-- The §3 invariant: every rider has at most one Pending request. -/
def atMostOnePending (db : DB) : Prop :=
  ∀ email : String, pendingCount db.cashouts email ≤ 1

/-! ### Helper lemmas -/

/-- A left fold that adds `g` of each element equals the sum of the mapped list. -/
theorem foldl_add_map {α : Type} (g : α → ℚ) :
    ∀ (l : List α) (a : ℚ), l.foldl (fun sum x => sum + g x) a = a + (l.map g).sum := by
  intro l
  induction l with
  | nil => intro a; simp
  | cons x xs ih => intro a; simp [ih, add_assoc]

/-- `updateFirst` on a list with no matching id changes nothing and reports 0. -/
theorem updateFirst_not_found (cs : List CashoutRequest) (id : Nat)
    (f : CashoutRequest → CashoutRequest)
    (h : cs.all (fun c => c.id != id) = true) :
    updateFirst cs id f = (cs, 0) := by
  induction cs with
  | nil => rfl
  | cons c rest ih =>
    rw [List.all_cons, Bool.and_eq_true] at h
    have hne : ¬ c.id = id := by simpa using h.1
    simp [updateFirst, hne, ih h.2]

/-- `updateFirst` rewrites exactly the first element whose id matches. -/
theorem updateFirst_found (pre post : List CashoutRequest) (c : CashoutRequest)
    (f : CashoutRequest → CashoutRequest)
    (hpre : pre.all (fun x => x.id != c.id) = true) :
    updateFirst (pre ++ c :: post) c.id f =
      (pre ++ f c :: post, if f c = c then 0 else 1) := by
  induction pre with
  | nil => simp [updateFirst]
  | cons x xs ih =>
    rw [List.all_cons, Bool.and_eq_true] at hpre
    have hne : ¬ x.id = c.id := by simpa using hpre.1
    simp [updateFirst, hne, ih hpre.2]

/-! ### Concrete data used by counterexamples, bug witnesses and witnesses -/

/-- A same-district completed delivery with charge 200: earning `160`. -/
def p1 : Parcel := ⟨"r@x", "Delivery Completed", some "Dhaka", some "Dhaka", some 200⟩

/-- A settled (Completed) cashout of 150 for the same rider. -/
def c1 : CashoutRequest := ⟨1, "r@x", "R", 150, "Completed", 0, some 1, some "TX", "paid"⟩

/-- Store with one eligible parcel and one Completed cashout: the rider's
current balance is `160 - 150 = 10`. -/
def db1 : DB := ⟨[p1], [c1]⟩

/-- What `c1` becomes after the resolve handler re-resolves it to Rejected. -/
def c1after : CashoutRequest := ⟨1, "r@x", "R", 150, "Rejected", 0, some 9, some "TX", ""⟩

/-- Store with only the Completed cashout `c1`. -/
def db2 : DB := ⟨[], [c1]⟩

/-- The Pending request created by the C1 failing submission. -/
def req2 : CashoutRequest := ⟨2, "r@x", "R", 150, "Pending", 5, none, none, ""⟩

/-- The empty store. -/
def db0 : DB := ⟨[], []⟩

/-! ### Claim theorems -/

/-- Claim C6: `calculateEarning` pays 8/10 of the delivery charge when the
sender and receiver districts are equal and 3/10 otherwise, and an absent
charge yields 0. -/
theorem calculateEarning_formula (p : Parcel) :
    (p.senderDistrict = p.receiverDistrict →
      calculateEarning p = 8/10 * p.deliveryCharge.getD 0) ∧
    (p.senderDistrict ≠ p.receiverDistrict →
      calculateEarning p = 3/10 * p.deliveryCharge.getD 0) ∧
    (p.deliveryCharge = none → calculateEarning p = 0) := by
  refine ⟨?_, ?_, ?_⟩
  · intro h; simp [calculateEarning, h, mul_comm]
  · intro h; simp [calculateEarning, h, mul_comm]
  · intro h; simp [calculateEarning, h]

/-- Witness for C6 at three concrete parcels. -/
theorem calculateEarning_formula_witness :
    (p1.senderDistrict = p1.receiverDistrict ∧
      calculateEarning p1 = 8/10 * p1.deliveryCharge.getD 0) ∧
    ((⟨"r@x", "SC Delivered", some "A", some "B", some 200⟩ : Parcel).senderDistrict ≠
        (⟨"r@x", "SC Delivered", some "A", some "B", some 200⟩ : Parcel).receiverDistrict ∧
      calculateEarning ⟨"r@x", "SC Delivered", some "A", some "B", some 200⟩ =
        3/10 * (⟨"r@x", "SC Delivered", some "A", some "B", some 200⟩ : Parcel).deliveryCharge.getD 0) ∧
    ((⟨"r@x", "SC Delivered", some "A", some "B", none⟩ : Parcel).deliveryCharge = none ∧
      calculateEarning ⟨"r@x", "SC Delivered", some "A", some "B", none⟩ = 0) :=
  ⟨⟨rfl, (calculateEarning_formula p1).1 rfl⟩,
   ⟨by decide, (calculateEarning_formula _).2.1 (by decide)⟩,
   ⟨rfl, (calculateEarning_formula _).2.2 rfl⟩⟩

/-- Claim C1 (code bug): the submit handler's balance check compares the
amount against `totalEarnings` alone, not against
`currentBalance = totalEarnings - totalCashouted`.  Rider `r@x` has
`currentBalance = 10`; submitting 150 (which exceeds 10 but not the 160 of
total earnings) passes every check, creates a Pending request, and drives
the current balance to `-140`. -/
theorem cashout_balance_check_ignores_committed :
    (balanceOf db1 "r@x").currentBalance = 10 ∧
    (balanceOf db1 "r@x").currentBalance < 150 ∧
    ridersCashout db1 ⟨some "r@x", some 150, some "R"⟩ 5 2 =
      (.created req2, ⟨db1.parcels, db1.cashouts ++ [req2]⟩) ∧
    (balanceOf (ridersCashout db1 ⟨some "r@x", some 150, some "R"⟩ 5 2).2 "r@x").currentBalance
      = -140 := by
  have hTE : totalEarningsOf db1.parcels "r@x" = 160 := by
    norm_num [totalEarningsOf, completedParcelsOf, db1, p1, earningEligible,
      calculateEarning, List.filter, List.foldl]
  have hTC : totalCashoutedOf db1.cashouts "r@x" = 150 := by
    norm_num [totalCashoutedOf, db1, c1, committedStatus, List.filter, List.foldl]
  have hpend : (findPending db1.cashouts "r@x").isSome = false := by decide
  have hne : ¬("r@x" = "" ∨ "R" = "") := by decide
  have hsub : ridersCashout db1 ⟨some "r@x", some 150, some "R"⟩ 5 2 =
      (.created req2, ⟨db1.parcels, db1.cashouts ++ [req2]⟩) := by
    norm_num [ridersCashout, strTruthy, numTruthy, hpend, hTE, req2, hne]
  have hTC2 : totalCashoutedOf (db1.cashouts ++ [req2]) "r@x" = 300 := by
    norm_num [totalCashoutedOf, db1, c1, req2, committedStatus, List.filter, List.foldl]
  refine ⟨?_, ?_, hsub, ?_⟩
  · norm_num [balanceOf, hTE, hTC]
  · norm_num [balanceOf, hTE, hTC]
  · rw [hsub]
    norm_num [balanceOf, hTE, hTC2]

/-- Claim C2 (code bug): the resolve handler never checks the stored status,
so resolving the already-Completed request `c1` to Rejected succeeds with a
200 response and silently overwrites its status, processedDate and notes. -/
theorem resolve_overwrites_terminal_request :
    c1.status = "Completed" ∧
    adminCashout db2 1 ⟨some "Rejected", some "TX9", none⟩ 9 = (.ok 1, ⟨[], [c1after]⟩) ∧
    c1after ≠ c1 ∧
    c1after.status = "Rejected" ∧
    c1after.processedDate = some 9 ∧
    c1after.notes = "" := by
  decide

/-- Counterexample to claim C4 as stated: a negative amount is reported as
`BelowMinimum`, not `InvalidInput`, and an amount violating both the minimum
and the balance check is reported as `InsufficientBalance`, not
`BelowMinimum` — the source checks the balance before the minimum. -/
theorem cashout_validation_order_counterexample :
    ridersCashout db0 ⟨some "r@x", some (-50), some "R"⟩ 0 1 = (.belowMinimum, db0) ∧
    SubmitResult.belowMinimum ≠ SubmitResult.invalidInput ∧
    ridersCashout db0 ⟨some "r@x", some 50, some "R"⟩ 0 1 = (.insufficientBalance 0, db0) ∧
    SubmitResult.insufficientBalance 0 ≠ SubmitResult.belowMinimum := by
  decide

/-- Claim C4 (amended): the submit handler validates in the order presence
(JavaScript truthiness of email, amount, riderName — so a negative amount
passes), duplicate-pending, insufficient balance (`amount > totalEarnings`),
below minimum (`amount < 100`); first violation wins and the store is
unchanged on every rejection. -/
theorem cashout_validation_order (db : DB) (body : SubmitBody) (now newId : Nat) :
    ((strTruthy body.email && numTruthy body.amount && strTruthy body.riderName) = false →
      ridersCashout db body now newId = (.invalidInput, db)) ∧
    ((strTruthy body.email && numTruthy body.amount && strTruthy body.riderName) = true →
      (findPending db.cashouts (body.email.getD "")).isSome = true →
      ridersCashout db body now newId = (.duplicatePending, db)) ∧
    ((strTruthy body.email && numTruthy body.amount && strTruthy body.riderName) = true →
      (findPending db.cashouts (body.email.getD "")).isSome = false →
      totalEarningsOf db.parcels (body.email.getD "") < body.amount.getD 0 →
      ridersCashout db body now newId =
        (.insufficientBalance (totalEarningsOf db.parcels (body.email.getD "")), db)) ∧
    ((strTruthy body.email && numTruthy body.amount && strTruthy body.riderName) = true →
      (findPending db.cashouts (body.email.getD "")).isSome = false →
      ¬ totalEarningsOf db.parcels (body.email.getD "") < body.amount.getD 0 →
      body.amount.getD 0 < 100 →
      ridersCashout db body now newId = (.belowMinimum, db)) ∧
    ((strTruthy body.email && numTruthy body.amount && strTruthy body.riderName) = true →
      (findPending db.cashouts (body.email.getD "")).isSome = false →
      ¬ totalEarningsOf db.parcels (body.email.getD "") < body.amount.getD 0 →
      ¬ body.amount.getD 0 < 100 →
      ridersCashout db body now newId =
        (.created ⟨newId, body.email.getD "", body.riderName.getD "", body.amount.getD 0,
            "Pending", now, none, none, ""⟩,
          ⟨db.parcels, db.cashouts ++
            [⟨newId, body.email.getD "", body.riderName.getD "", body.amount.getD 0,
              "Pending", now, none, none, ""⟩]⟩)) := by
  refine ⟨?_, ?_, ?_, ?_, ?_⟩
  · intro h1; simp [ridersCashout, h1]
  · intro h1 h2; simp [ridersCashout, h1, h2]
  · intro h1 h2 h3; simp [ridersCashout, h1, h2, h3]
  · intro h1 h2 h3 h4; simp [ridersCashout, h1, h2, h3, h4]
  · intro h1 h2 h3 h4; simp [ridersCashout, h1, h2, h3, h4]

/-- Witness for C4 at concrete inputs: missing email is `InvalidInput`, a
negative amount is `BelowMinimum`, and an amount failing both the minimum
and the balance check is `InsufficientBalance`. -/
theorem cashout_validation_order_witness :
    ridersCashout db0 ⟨none, some 150, some "R"⟩ 0 1 = (.invalidInput, db0) ∧
    ridersCashout db0 ⟨some "r@x", some (-50), some "R"⟩ 0 1 = (.belowMinimum, db0) ∧
    ridersCashout db0 ⟨some "r@x", some 50, some "R"⟩ 0 1 =
      (.insufficientBalance (totalEarningsOf db0.parcels "r@x"), db0) :=
  ⟨(cashout_validation_order db0 ⟨none, some 150, some "R"⟩ 0 1).1 (by decide),
   (cashout_validation_order db0 ⟨some "r@x", some (-50), some "R"⟩ 0 1).2.2.2.1
      (by decide) (by decide) (by decide) (by decide),
   (cashout_validation_order db0 ⟨some "r@x", some 50, some "R"⟩ 0 1).2.2.1
      (by decide) (by decide) (by decide)⟩

/-- Counterexample to claim C7 as stated: resolving an id that matches no
stored request answers with the 200 success shape (`ok` with
`modifiedCount = 0`) — the handler has no 404 NotFound branch. -/
theorem resolve_unknown_id_counterexample :
    db2.cashouts.all (fun c => c.id != 99) = true ∧
    adminCashout db2 99 ⟨some "Completed", none, none⟩ 9 = (.ok 0, db2) := by
  decide

/-- Claim C7 (amended): resolving an unknown request id with a valid target
status reports success with `modifiedCount = 0` and leaves the store
unchanged; no NotFound error is produced. -/
theorem resolve_unknown_id_succeeds (db : DB) (requestId : Nat) (body : ResolveBody)
    (now : Nat)
    (hst : (body.status == some "Completed" || body.status == some "Rejected") = true)
    (hnone : db.cashouts.all (fun c => c.id != requestId) = true) :
    adminCashout db requestId body now = (.ok 0, db) := by
  have hup := updateFirst_not_found db.cashouts requestId
    (resolveUpdate body ((body.status).getD "") now) hnone
  simp [adminCashout, hst, hup]

/-- Witness for C7 at a concrete store and id. -/
theorem resolve_unknown_id_witness :
    adminCashout db1 7 ⟨some "Rejected", none, some "n"⟩ 3 = (.ok 0, db1) :=
  resolve_unknown_id_succeeds db1 7 ⟨some "Rejected", none, some "n"⟩ 3
    (by decide) (by decide)

/-- A left fold that adds each element equals the sum. -/
theorem foldl_add (l : List ℚ) (a : ℚ) :
    l.foldl (fun sum x => sum + x) a = a + l.sum := by
  induction l generalizing a with
  | nil => simp
  | cons x xs ih => simp [ih, add_assoc]

/-- Appending an element the find? predicate rejects does not change `find?`. -/
theorem find?_append_singleton {α : Type} (p : α → Bool) (l : List α) (x : α)
    (hx : p x = false) : (l ++ [x]).find? p = l.find? p := by
  induction l with
  | nil => simp [List.find?, hx]
  | cons a as ih => cases h : p a <;> simp [List.find?, h, ih]

/-- A request rejected by the balance aggregation filter: Rejected status. -/
theorem committed_false_of_rejected (r : CashoutRequest) (email : String)
    (hr : r.status = "Rejected") :
    (r.riderEmail == email && committedStatus r) = false := by
  simp [committedStatus, hr]

/-- Claim C3: the balance handler returns `totalEarnings` as the sum of
`calculateEarning` over the rider's earning-eligible parcels,
`totalCashouted` as the sum of amounts over the rider's Pending and
Completed requests, `currentBalance` as their difference, and a Rejected
request contributes nothing to any of the returned fields. -/
theorem balanceOf_spec (db : DB) (email : String) (r : CashoutRequest)
    (hr : r.status = "Rejected") :
    (balanceOf db email).totalEarnings =
      ((db.parcels.filter (fun p => p.riderEmail == email && earningEligible p)).map
        calculateEarning).sum ∧
    (balanceOf db email).totalCashouted =
      ((db.cashouts.filter
          (fun c => c.riderEmail == email &&
            (c.status == "Pending" || c.status == "Completed"))).map
        (fun c => c.amount)).sum ∧
    (balanceOf db email).currentBalance =
      (balanceOf db email).totalEarnings - (balanceOf db email).totalCashouted ∧
    balanceOf ⟨db.parcels, db.cashouts ++ [r]⟩ email = balanceOf db email := by
  have hfun : (fun c : CashoutRequest => c.riderEmail == email && committedStatus c) =
      (fun c : CashoutRequest => c.riderEmail == email &&
        (c.status == "Pending" || c.status == "Completed")) := by
    funext c
    cases h1 : c.status == "Completed" <;> cases h2 : c.status == "Pending" <;>
      simp [committedStatus, h1, h2]
  have hrej := committed_false_of_rejected r email hr
  refine ⟨?_, ?_, rfl, ?_⟩
  · simp [balanceOf, totalEarningsOf, completedParcelsOf, foldl_add_map]
  · rw [balanceOf]
    simp only [totalCashoutedOf, foldl_add, zero_add, hfun]
  · rw [balanceOf, balanceOf]
    have h1 : totalEarningsOf (⟨db.parcels, db.cashouts ++ [r]⟩ : DB).parcels email =
        totalEarningsOf db.parcels email := rfl
    have h2 : totalCashoutedOf (db.cashouts ++ [r]) email =
        totalCashoutedOf db.cashouts email := by
      simp [totalCashoutedOf, List.filter_append, List.filter, hrej]
    have h3 : findPending (db.cashouts ++ [r]) email = findPending db.cashouts email := by
      have hp : (r.riderEmail == email && r.status == "Pending") = false := by
        simp [hr]
      exact find?_append_singleton _ db.cashouts r hp
    simp only [h1, h2, h3]

/-- A Rejected request used to witness C3. -/
def rRej : CashoutRequest := ⟨3, "r@x", "R", 40, "Rejected", 2, some 3, none, ""⟩

/-- Witness for C3 at the concrete store `db1` and the rejected request `rRej`. -/
theorem balanceOf_spec_witness :
    (balanceOf db1 "r@x").totalEarnings =
      ((db1.parcels.filter (fun p => p.riderEmail == "r@x" && earningEligible p)).map
        calculateEarning).sum ∧
    (balanceOf db1 "r@x").totalCashouted =
      ((db1.cashouts.filter
          (fun c => c.riderEmail == "r@x" &&
            (c.status == "Pending" || c.status == "Completed"))).map
        (fun c => c.amount)).sum ∧
    (balanceOf db1 "r@x").currentBalance =
      (balanceOf db1 "r@x").totalEarnings - (balanceOf db1 "r@x").totalCashouted ∧
    balanceOf ⟨db1.parcels, db1.cashouts ++ [rRej]⟩ "r@x" = balanceOf db1 "r@x" :=
  balanceOf_spec db1 "r@x" rRej rfl

/-- A valid resolve applied to the first stored request with a matching id:
common characterization used by the frame claims. -/
theorem adminCashout_found (parcels : List Parcel) (pre post : List CashoutRequest)
    (c : CashoutRequest) (body : ResolveBody) (now : Nat) (st : String)
    (hpre : pre.all (fun x => x.id != c.id) = true)
    (hst : body.status = some st)
    (hval : st = "Completed" ∨ st = "Rejected") :
    adminCashout ⟨parcels, pre ++ c :: post⟩ c.id body now =
      (.ok (if resolveUpdate body st now c = c then 0 else 1),
        ⟨parcels, pre ++ resolveUpdate body st now c :: post⟩) := by
  have hcond : (body.status == some "Completed" || body.status == some "Rejected") = true := by
    rcases hval with h | h <;> simp [hst, h]
  have hgd : (body.status).getD "" = st := by simp [hst]
  simp [adminCashout, hcond, hgd, updateFirst_found pre post c _ hpre]

/-- Claim C8: a valid resolve of a Pending request stores the target status
and `processedDate = now` while preserving requestDate, riderEmail,
riderName and amount; an invalid target status rejects with `InvalidStatus`
and changes nothing. -/
theorem resolve_pending_frame (parcels : List Parcel) (pre post : List CashoutRequest)
    (c : CashoutRequest) (body : ResolveBody) (now : Nat) (st : String)
    (hpre : pre.all (fun x => x.id != c.id) = true)
    (hst : body.status = some st)
    (hval : st = "Completed" ∨ st = "Rejected")
    (_hpend : c.status = "Pending") :
    ((adminCashout ⟨parcels, pre ++ c :: post⟩ c.id body now).2 =
        ⟨parcels, pre ++ resolveUpdate body st now c :: post⟩ ∧
      (resolveUpdate body st now c).status = st ∧
      (resolveUpdate body st now c).processedDate = some now ∧
      (resolveUpdate body st now c).requestDate = c.requestDate ∧
      (resolveUpdate body st now c).riderEmail = c.riderEmail ∧
      (resolveUpdate body st now c).riderName = c.riderName ∧
      (resolveUpdate body st now c).amount = c.amount) ∧
    (∀ (db : DB) (requestId : Nat) (b : ResolveBody) (t : Nat),
      (b.status == some "Completed" || b.status == some "Rejected") = false →
      adminCashout db requestId b t = (.invalidStatus, db)) := by
  refine ⟨⟨?_, rfl, rfl, rfl, rfl, rfl, rfl⟩, ?_⟩
  · rw [adminCashout_found parcels pre post c body now st hpre hst hval]
  · intro db requestId b t hb
    simp [adminCashout, hb]

/-- A Pending request and resolve bodies used to witness C8 and C10. -/
def cPend : CashoutRequest := ⟨1, "r@x", "R", 150, "Pending", 4, none, none, "old"⟩

/-- Resolve body targeting Completed with a transaction id and notes. -/
def bodyC8 : ResolveBody := ⟨some "Completed", some "TX2", some "done"⟩

/-- Resolve body targeting Rejected with a transaction id and no notes. -/
def bodyC10 : ResolveBody := ⟨some "Rejected", some "TX9", none⟩

/-- Witness for C8 at a concrete Pending request. -/
theorem resolve_pending_frame_witness :
    (adminCashout ⟨[], [cPend]⟩ cPend.id bodyC8 9).2 =
      ⟨[], [resolveUpdate bodyC8 "Completed" 9 cPend]⟩ ∧
    (resolveUpdate bodyC8 "Completed" 9 cPend).status = "Completed" ∧
    (resolveUpdate bodyC8 "Completed" 9 cPend).processedDate = some 9 ∧
    (resolveUpdate bodyC8 "Completed" 9 cPend).requestDate = cPend.requestDate :=
  ⟨(resolve_pending_frame [] [] [] cPend bodyC8 9 "Completed" rfl rfl (Or.inl rfl) rfl).1.1,
   (resolve_pending_frame [] [] [] cPend bodyC8 9 "Completed" rfl rfl (Or.inl rfl) rfl).1.2.1,
   (resolve_pending_frame [] [] [] cPend bodyC8 9 "Completed" rfl rfl (Or.inl rfl) rfl).1.2.2.1,
   (resolve_pending_frame [] [] [] cPend bodyC8 9 "Completed" rfl rfl (Or.inl rfl) rfl).1.2.2.2.1⟩

/-- Claim C10: the resolve handler always writes `notes || ""` (an omitted
notes argument erases stored notes), and writes `transactionId` only when
the target status is Completed and a truthy transaction id was supplied; a
Rejected resolution, or a Completed one without a transaction id, leaves
the stored `transactionId` untouched. -/
theorem resolve_notes_and_transactionId (parcels : List Parcel)
    (pre post : List CashoutRequest) (c : CashoutRequest) (body : ResolveBody)
    (now : Nat) (st : String)
    (hpre : pre.all (fun x => x.id != c.id) = true)
    (hst : body.status = some st)
    (hval : st = "Completed" ∨ st = "Rejected") :
    (adminCashout ⟨parcels, pre ++ c :: post⟩ c.id body now).2 =
      ⟨parcels, pre ++ resolveUpdate body st now c :: post⟩ ∧
    (body.notes = none → (resolveUpdate body st now c).notes = "") ∧
    (st = "Completed" → strTruthy body.transactionId = true →
      (resolveUpdate body st now c).transactionId = body.transactionId) ∧
    (st = "Rejected" → (resolveUpdate body st now c).transactionId = c.transactionId) ∧
    (strTruthy body.transactionId = false →
      (resolveUpdate body st now c).transactionId = c.transactionId) := by
  refine ⟨?_, ?_, ?_, ?_, ?_⟩
  · rw [adminCashout_found parcels pre post c body now st hpre hst hval]
  · intro hn; simp [resolveUpdate, hn]
  · intro h1 h2; simp [resolveUpdate, h1, h2]
  · intro h1; simp [resolveUpdate, h1]
  · intro h1; simp [resolveUpdate, h1]

/-- Witness for C10: an omitted notes argument erases the stored notes and a
Rejected resolution does not record the supplied transaction id. -/
theorem resolve_notes_and_transactionId_witness :
    (adminCashout ⟨[], [cPend]⟩ cPend.id bodyC10 9).2 =
      ⟨[], [resolveUpdate bodyC10 "Rejected" 9 cPend]⟩ ∧
    (resolveUpdate bodyC10 "Rejected" 9 cPend).notes = "" ∧
    (resolveUpdate bodyC10 "Rejected" 9 cPend).transactionId = cPend.transactionId :=
  ⟨(resolve_notes_and_transactionId [] [] [] cPend bodyC10 9 "Rejected" rfl rfl
      (Or.inr rfl)).1,
   (resolve_notes_and_transactionId [] [] [] cPend bodyC10 9 "Rejected" rfl rfl
      (Or.inr rfl)).2.1 rfl,
   (resolve_notes_and_transactionId [] [] [] cPend bodyC10 9 "Rejected" rfl rfl
      (Or.inr rfl)).2.2.2.1 rfl⟩

/-! ### The at-most-one-Pending invariant (C5) -/

/-- A rider with no Pending request found has a Pending count of zero. -/
theorem pendingCount_eq_zero (cs : List CashoutRequest) (email : String)
    (h : findPending cs email = none) : pendingCount cs email = 0 := by
  rw [findPending, List.find?_eq_none] at h
  rw [pendingCount, List.length_eq_zero, List.filter_eq_nil_iff]
  exact h

/-- Pending counts add over list append. -/
theorem pendingCount_append (cs ds : List CashoutRequest) (email : String) :
    pendingCount (cs ++ ds) email = pendingCount cs email + pendingCount ds email := by
  simp [pendingCount, List.filter_append]

/-- `updateFirst` with an update that never produces a Pending status does
not increase any rider's Pending count. -/
theorem updateFirst_pendingCount_le (cs : List CashoutRequest) (id : Nat)
    (f : CashoutRequest → CashoutRequest) (hf : ∀ c, (f c).status ≠ "Pending")
    (email : String) :
    pendingCount (updateFirst cs id f).1 email ≤ pendingCount cs email := by
  induction cs with
  | nil => simp [updateFirst]
  | cons c rest ih =>
    by_cases h : c.id = id
    · have hfc : ((f c).riderEmail == email && (f c).status == "Pending") = false := by
        simp [hf c]
      have key : pendingCount (f c :: rest) email ≤ pendingCount (c :: rest) email := by
        have hl : pendingCount (f c :: rest) email = pendingCount rest email := by
          simp [pendingCount, List.filter_cons, hfc]
        rw [hl, pendingCount, pendingCount, List.filter_cons]
        split
        · simp only [List.length_cons]
          exact Nat.le_succ_of_le (Nat.le_refl _)
        · exact Nat.le_refl _
      simpa [updateFirst, h] using key
    · simp only [updateFirst, if_neg h]
      rw [pendingCount, pendingCount, List.filter_cons, List.filter_cons]
      split
      · simp only [List.length_cons]
        exact Nat.succ_le_succ ih
      · exact ih

/-- One submit call preserves the at-most-one-Pending invariant: either the
store is unchanged, or a Pending request is created for a rider who had
none. -/
theorem ridersCashout_state (db : DB) (body : SubmitBody) (now newId : Nat) :
    (ridersCashout db body now newId).2 = db ∨
    ∃ request : CashoutRequest,
      request.status = "Pending" ∧
      findPending db.cashouts request.riderEmail = none ∧
      (ridersCashout db body now newId).2 = ⟨db.parcels, db.cashouts ++ [request]⟩ := by
  by_cases h1 : (strTruthy body.email && numTruthy body.amount && strTruthy body.riderName) = true
  case neg =>
    left
    simp [ridersCashout, Bool.eq_false_iff.mpr h1]
  case pos =>
    by_cases h2 : (findPending db.cashouts (body.email.getD "")).isSome = true
    · left; simp [ridersCashout, h1, h2]
    · have h2' : findPending db.cashouts (body.email.getD "") = none :=
        Option.not_isSome_iff_eq_none.mp h2
      by_cases h3 : totalEarningsOf db.parcels (body.email.getD "") < body.amount.getD 0
      · left; simp [ridersCashout, h1, h2, h3]
      · by_cases h4 : body.amount.getD 0 < 100
        · left; simp [ridersCashout, h1, h2, h3, h4]
        · right
          refine ⟨⟨newId, body.email.getD "", body.riderName.getD "", body.amount.getD 0,
            "Pending", now, none, none, ""⟩, rfl, h2', ?_⟩
          simp [ridersCashout, h1, h2, h3, h4]

/-- Submit preserves the invariant. -/
theorem submit_preserves_invariant (db : DB) (body : SubmitBody) (now newId : Nat)
    (h : atMostOnePending db) :
    atMostOnePending (ridersCashout db body now newId).2 := by
  rcases ridersCashout_state db body now newId with heq | ⟨request, hst, hnone, heq⟩
  · rw [heq]; exact h
  · rw [heq]
    intro email
    show pendingCount (db.cashouts ++ [request]) email ≤ 1
    rw [pendingCount_append]
    by_cases he : request.riderEmail = email
    · have h0 : pendingCount db.cashouts email = 0 :=
        pendingCount_eq_zero db.cashouts email (he ▸ hnone)
      have h1 : pendingCount [request] email ≤ 1 := by
        simp [pendingCount, List.filter_cons, he, hst]
      omega
    · have h1 : pendingCount [request] email = 0 := by
        simp [pendingCount, List.filter_cons, he]
      have h2 := h email
      omega

/-- Resolve preserves the invariant: the target status is terminal, so the
update never creates a Pending request. -/
theorem adminCashout_preserves_of_status (db : DB) (requestId : Nat)
    (body : ResolveBody) (now : Nat) (st : String)
    (hst : body.status = some st) (hval : st = "Completed" ∨ st = "Rejected")
    (h : atMostOnePending db) :
    atMostOnePending (adminCashout db requestId body now).2 := by
  have hcond : (body.status == some "Completed" || body.status == some "Rejected") = true := by
    rcases hval with h1 | h1 <;> simp [hst, h1]
  have hnp : ∀ c, (resolveUpdate body ((body.status).getD "") now c).status ≠ "Pending" := by
    intro c
    rcases hval with h1 | h1 <;> simp [resolveUpdate, hst, h1]
  have hgoal : (adminCashout db requestId body now).2 =
      ⟨db.parcels,
        (updateFirst db.cashouts requestId
          (resolveUpdate body ((body.status).getD "") now)).1⟩ := by
    simp [adminCashout, hcond]
  rw [hgoal]
  intro email
  exact le_trans
    (updateFirst_pendingCount_le db.cashouts requestId _ hnp email) (h email)

/-- Resolve preserves the invariant: an invalid target status changes
nothing, and a terminal target status never creates a Pending request. -/
theorem resolve_preserves_invariant (db : DB) (requestId : Nat) (body : ResolveBody)
    (now : Nat) (h : atMostOnePending db) :
    atMostOnePending (adminCashout db requestId body now).2 := by
  by_cases hC : body.status = some "Completed"
  · exact adminCashout_preserves_of_status db requestId body now "Completed" hC
      (Or.inl rfl) h
  · by_cases hR : body.status = some "Rejected"
    · exact adminCashout_preserves_of_status db requestId body now "Rejected" hR
        (Or.inr rfl) h
    · have hcond : (body.status == some "Completed" ||
          body.status == some "Rejected") = false := by
        simp [hC, hR]
      simpa [adminCashout, hcond] using h

/-- Claim C5: (a) a presence-valid submit made while the rider already has a
Pending request fails with `DuplicatePending` and leaves the store
unchanged, whatever the amount; (b) every sequence of submit and resolve
operations preserves the at-most-one-Pending-per-rider invariant. -/
theorem at_most_one_pending_invariant :
    (∀ (db : DB) (body : SubmitBody) (now newId : Nat),
      strTruthy body.email = true → numTruthy body.amount = true →
      strTruthy body.riderName = true →
      (findPending db.cashouts (body.email.getD "")).isSome = true →
      ridersCashout db body now newId = (.duplicatePending, db)) ∧
    (∀ (db : DB) (ops : List Op),
      atMostOnePending db → atMostOnePending (applyOps db ops)) := by
  constructor
  · intro db body now newId h1 h2 h3 h4
    simp [ridersCashout, h1, h2, h3, h4]
  · intro db ops
    induction ops generalizing db with
    | nil => intro h; exact h
    | cons op rest ih =>
      intro h
      rw [applyOps, List.foldl_cons]
      refine ih (applyOp db op) ?_
      cases op with
      | submit body now newId => exact submit_preserves_invariant db body now newId h
      | resolve requestId body now => exact resolve_preserves_invariant db requestId body now h

/-- Witness for C5: a second submission for a rider with a Pending request
is rejected as duplicate, and a concrete operation sequence starting from
the empty store satisfies the invariant. -/
theorem at_most_one_pending_invariant_witness :
    ridersCashout ⟨[], [cPend]⟩ ⟨some "r@x", some 500, some "R"⟩ 7 9 =
      (.duplicatePending, ⟨[], [cPend]⟩) ∧
    atMostOnePending (applyOps db0
      [.submit ⟨some "r@x", some 500, some "R"⟩ 1 1,
       .resolve 1 ⟨some "Rejected", none, none⟩ 2]) := by
  constructor
  · exact at_most_one_pending_invariant.1 ⟨[], [cPend]⟩ ⟨some "r@x", some 500, some "R"⟩
      7 9 rfl (by decide) rfl (by decide)
  · refine at_most_one_pending_invariant.2 db0 _ ?_
    intro email
    simp only [db0, pendingCount, List.filter_nil, List.length_nil]
    omega

end Mirpur
